import Mathlib

/-! # api.oid-explorer.com: the relation assembler, the store adapter and the HTTP handlers

A shallow embedding of `oid/oid.go`, `database/database.go` and the handlers of
`api/api.go`.

* The SQL store behind `sqlx` is a collaborator: `Store` answers each query
  (statement text plus bound arguments) with the scanned columns or an error.
  The store is read-only, so it is a pure function of the query.
* Every adapter operation returns its Go result together with the list of
  external interactions (`Event`) it performed, in order.
* The unbounded `for` loop of `GetOIDRelation` is driven by fuel; `none` means
  that the loop has not returned within the given number of iterations.
* The package-level `db` variable (a `sync.Once` and the shared handle) is the
  explicit state `DB`, threaded through `GetDB` and the handlers.
-/

set_option linter.dupNamespace false
set_option linter.unusedVariables false

namespace OidExplorer

/-! ## Errors (`github.com/pkg/errors`, `strconv.NumError`) -/

/-- Error values: `errors.New(msg)`, `errors.Wrap(cause, msg)` and the
`*strconv.NumError` built by the `strconv` parsers. -/
inductive Error where
  | new (msg : String)
  | wrap (cause : Error) (msg : String)
  | numError (Func : String) (Num : String) (Err : Error)
deriving DecidableEq, Repr

/-- Sentinel `strconv.ErrSyntax`. -/
def ErrSyntax : Error := Error.new "invalid syntax"

/-- Sentinel `strconv.ErrRange`. -/
def ErrRange : Error := Error.new "value out of range"

/-! ## Package `oid` -/

/-- Go `oid.Description`. -/
structure Description where
  MIB : String
  Description : String
deriving DecidableEq, Repr

mutual
/-- Go `oid.OID`: name, path and the embedded `*Properties` (nil is `none`). -/
inductive OID where
  | mk (Name : String) (OID : String) (Properties : Option Properties)
/-- Go `oid.Properties`; `Parent` is a `*OID` (nil is `none`). -/
inductive Properties where
  | mk (ObjectType : String) (Descriptions : List Description) (Parent : Option OID)
end

/-- Field `Name` of `oid.OID`. -/
def OID.Name : OID → String
  | .mk n _ _ => n

/-- Field `OID` of `oid.OID`. -/
def OID.OID : OID → String
  | .mk _ o _ => o

/-- Embedded pointer `*Properties` of `oid.OID`. -/
def OID.Properties : OidExplorer.OID → Option OidExplorer.Properties
  | .mk _ _ p => p

/-- Field `ObjectType` of `oid.Properties`. -/
def Properties.ObjectType : Properties → String
  | .mk t _ _ => t

/-- Field `Descriptions` of `oid.Properties`. -/
def Properties.Descriptions : Properties → List Description
  | .mk _ ds _ => ds

/-- Field `Parent` of `oid.Properties`. -/
def Properties.Parent : Properties → Option OID
  | .mk _ _ p => p

/-- Go `oid.Relation`: an identifier and its child relations (a nil slice is `[]`). -/
structure Relation where
  OID : OID
  Children : List Relation

/-! ## The store behind `sqlx` -/

/-- A statement sent to the store: SQL text and the bound arguments. -/
structure Query where
  sql : String
  args : List String
deriving DecidableEq, Repr

/-- External interactions: `sqlx.Connect`, `d.Get` and `d.Select`. -/
inductive Event where
  | connect
  | get (q : Query)
  | select (q : Query)
deriving DecidableEq, Repr

/-- Columns `name, oid, objectType` of one row. -/
structure NodeRow where
  name : String
  oid : String
  objectType : String
deriving DecidableEq, Repr

/-- Columns `name, oid` of one row. -/
structure NameRow where
  name : String
  oid : String
deriving DecidableEq, Repr

/-- Scanning a `name, oid` row into an `oid.OID` leaves `Properties` nil. -/
def NameRow.scan (r : NameRow) : OID := OID.mk r.name r.oid none

/-- The store collaborator. `getNode` and `getName` answer `d.Get` for a
statement selecting `name, oid, objectType`, respectively `name, oid` (an error
covers `sql.ErrNoRows`, a NULL column that cannot be scanned into a string and
any driver failure); `selectDescriptions` and `selectNames` answer `d.Select`. -/
structure Store where
  getNode : Query → Except Error NodeRow
  getName : Query → Except Error NameRow
  selectDescriptions : Query → Except Error (List Description)
  selectNames : Query → Except Error (List NameRow)

/-! ## Package `database` -/

/-- The error `errors.New("got empty oid to search for")` of the five lookups. -/
def errEmptyOID : Error := Error.new "got empty oid to search for"

/-- Statement of `GetOID` for the node itself. -/
def oidQuery (wantedOID : String) : Query :=
  ⟨"SELECT name, oid, objectType " ++ "FROM oids " ++ "WHERE oid = ?", [wantedOID]⟩

/-- Statement of `GetOID` for the descriptions. -/
def descriptionQuery (wantedOID : String) : Query :=
  ⟨"SELECT m.name AS mib, d.description AS description " ++ "FROM oidDescriptions d " ++
    "JOIN oids o ON d.oid = o.id " ++ "JOIN mibs m ON d.mib = m.id " ++ "WHERE o.oid = ?",
    [wantedOID]⟩

/-- Statement of `GetOIDParent`. -/
def parentQuery (wantedOID : String) : Query :=
  ⟨"SELECT p.name AS name, p.oid AS oid " ++ "FROM oids o " ++
    "LEFT JOIN oids p ON o.parent = p.id " ++ "WHERE o.oid = ?", [wantedOID]⟩

/-- Statement of `GetOIDSiblings`. -/
def siblingsQuery (wantedOID : String) : Query :=
  ⟨"SELECT name, oid " ++ "FROM oids " ++
    "WHERE parent = (SELECT parent FROM oids WHERE oid = ?) AND oid != ? " ++
    "ORDER BY LENGTH(oid), oid", [wantedOID, wantedOID]⟩

/-- Statement of `GetOIDChildren`. -/
def childrenQuery (wantedOID : String) : Query :=
  ⟨"SELECT o.name, o.oid " ++ "FROM oids o " ++ "LEFT JOIN oids p ON o.parent = p.id " ++
    "WHERE p.oid = ? " ++ "ORDER BY LENGTH(o.oid), o.oid", [wantedOID]⟩

/-- Go `database.GetOIDParent`. -/
def GetOIDParent (d : Store) (wantedOID : String) : Except Error OID × List Event :=
  if wantedOID = "" then (.error errEmptyOID, [])
  else
    match d.getName (parentQuery wantedOID) with
    | .error err =>
      (.error (err.wrap "failed to query database for parent"), [.get (parentQuery wantedOID)])
    | .ok parent => (.ok parent.scan, [.get (parentQuery wantedOID)])

/-- Go `database.GetOID`: the node row, its descriptions, and the parent when the
nested parent lookup returns no error. -/
def GetOID (d : Store) (wantedOID : String) : Except Error OID × List Event :=
  if wantedOID = "" then (.error errEmptyOID, [])
  else
    match d.getNode (oidQuery wantedOID) with
    | .error err =>
      (.error (err.wrap "failed to query database for oid"), [.get (oidQuery wantedOID)])
    | .ok res =>
      match d.selectDescriptions (descriptionQuery wantedOID) with
      | .error err =>
        (.error (err.wrap "failed to query database for description"),
          [.get (oidQuery wantedOID), .select (descriptionQuery wantedOID)])
      | .ok descriptions =>
        match GetOIDParent d wantedOID with
        | (.ok parent, ev) =>
          (.ok (OID.mk res.name res.oid
              (some (Properties.mk res.objectType descriptions (some parent)))),
            [.get (oidQuery wantedOID), .select (descriptionQuery wantedOID)] ++ ev)
        | (.error _, ev) =>
          (.ok (OID.mk res.name res.oid
              (some (Properties.mk res.objectType descriptions none))),
            [.get (oidQuery wantedOID), .select (descriptionQuery wantedOID)] ++ ev)

/-- Go `database.GetOIDSiblings`. -/
def GetOIDSiblings (d : Store) (wantedOID : String) : Except Error (List OID) × List Event :=
  if wantedOID = "" then (.error errEmptyOID, [])
  else
    match d.selectNames (siblingsQuery wantedOID) with
    | .error err =>
      (.error (err.wrap "failed to query database"), [.select (siblingsQuery wantedOID)])
    | .ok res => (.ok (res.map NameRow.scan), [.select (siblingsQuery wantedOID)])

/-- Go `database.GetOIDChildren`. -/
def GetOIDChildren (d : Store) (wantedOID : String) : Except Error (List OID) × List Event :=
  if wantedOID = "" then (.error errEmptyOID, [])
  else
    match d.selectNames (childrenQuery wantedOID) with
    | .error err =>
      (.error (err.wrap "failed to query database"), [.select (childrenQuery wantedOID)])
    | .ok res => (.ok (res.map NameRow.scan), [.select (childrenQuery wantedOID)])

/-- Run-time panic of Go on dereferencing a nil `*Properties`. It is not an error
value in Go; it is kept in the error channel so that every path has an outcome. -/
def errNilProperties : Error :=
  Error.new "runtime error: invalid memory address or nil pointer dereference"

/-- Local variables of the ascent loop of `GetOIDRelation`. -/
structure Ascent where
  currentOID : OID
  res : Relation

/-- Outcome of one pass through the body of the ascent loop: the function
returns (`ret`), or the loop goes round again with new locals (`next`). -/
inductive Step where
  | ret (r : Except Error Relation)
  | next (s : Ascent)

/-- One pass through the body of the `for` loop of `GetOIDRelation`. -/
def ascendStep (d : Store) (s : Ascent) : Step × List Event :=
  match s.currentOID.Properties with
  | none => (.ret (.error errNilProperties), [])
  | some props =>
    match props.Parent with
    | none => (.ret (.ok s.res), [])
    | some parent =>
      match GetOID d parent.OID with
      | (.error err, ev) => (.ret (.error err), ev)
      | (.ok currentOID, ev) =>
        (.next ⟨currentOID, ⟨OID.mk parent.Name parent.OID none, [s.res]⟩⟩, ev)

/-- The `for` loop of `GetOIDRelation`, entered at most `fuel` times; `none` when
the loop has not returned by then. -/
def ascend (d : Store) : Nat → Ascent → Option (Except Error Relation × List Event)
  | 0, _ => none
  | fuel + 1, s =>
    match ascendStep d s with
    | (.ret r, ev) => some (r, ev)
    | (.next s1, ev) => (ascend d fuel s1).map (fun out => (out.1, ev ++ out.2))

/-- Locals of the ascent loop after `n` completed passes, `none` if the function
returned during one of them. -/
def ascendIter (d : Store) : Nat → Ascent → Option Ascent
  | 0, s => some s
  | n + 1, s =>
    match ascendStep d s with
    | (.ret _, _) => none
    | (.next s1, _) => ascendIter d n s1

/-- The relation leaf built for one child: name and path only. -/
def childRelation (child : OID) : Relation :=
  ⟨OID.mk child.Name child.OID none, []⟩

/-- Locals at the entry of the ascent loop of `GetOIDRelation`. -/
def initialAscent (currentOID : OID) (children : List OID) : Ascent :=
  ⟨currentOID, ⟨OID.mk currentOID.Name currentOID.OID none, children.map childRelation⟩⟩

/-- Go `database.GetOIDRelation`, its loop bounded by `fuel`. An error result
stands for the Go pair of the zero `oid.Relation` and the error. -/
def GetOIDRelation (fuel : Nat) (d : Store) (wantedOID : String) :
    Option (Except Error Relation × List Event) :=
  if wantedOID = "" then some (.error errEmptyOID, [])
  else
    match GetOID d wantedOID with
    | (.error err, ev) => some (.error err, ev)
    | (.ok currentOID, ev) =>
      match GetOIDChildren d wantedOID with
      | (.error err, ev2) => some (.error err, ev ++ ev2)
      | (.ok children, ev2) =>
        (ascend d fuel (initialAscent currentOID children)).map
          (fun out => (out.1, ev ++ ev2 ++ out.2))

/-- Go `database.OIDSearch`; the pointer fields are options. -/
structure OIDSearch where
  Any : Option String := none
  Name : Option String := none
  OID : Option String := none
  Limit : Option Int := none
deriving DecidableEq, Repr

/-- Go `strconv.Itoa`: decimal text of an integer, `-` first when negative. -/
def Itoa (i : Int) : String := toString i

/-- The `LIMIT` clause of `SearchOID`. -/
def limitQuery (search : OIDSearch) : String :=
  match search.Limit with
  | some limit => " LIMIT " ++ Itoa limit
  | none => ""

/-- The statement `SearchOID` sends for a search. -/
def searchQuery (search : OIDSearch) : Query :=
  let selectQuery := "SELECT name, oid FROM oids "
  match search.Any, search.Name, search.OID with
  | some any, _, _ =>
    ⟨selectQuery ++
      "WHERE name LIKE ? OR oid LIKE ? ORDER BY INSTR(name, ?), INSTR(oid, ?), name" ++
      limitQuery search, ["%" ++ any ++ "%", "%" ++ any ++ "%", any, any]⟩
  | none, some name, _ =>
    ⟨selectQuery ++ "WHERE name LIKE ? ORDER BY INSTR(name, ?), name" ++ limitQuery search,
      ["%" ++ name ++ "%", name]⟩
  | none, none, some oid =>
    ⟨selectQuery ++ "WHERE oid LIKE ? ORDER BY INSTR(oid, ?), name" ++ limitQuery search,
      ["%" ++ oid ++ "%", oid]⟩
  | none, none, none => ⟨selectQuery ++ "ORDER BY oid" ++ limitQuery search, []⟩

/-- Go `database.SearchOID`. -/
def SearchOID (d : Store) (search : OIDSearch) : Except Error (List OID) × List Event :=
  match d.selectNames (searchQuery search) with
  | .error err => (.error (err.wrap "failed to query database"), [.select (searchQuery search)])
  | .ok res => (.ok (res.map NameRow.scan), [.select (searchQuery search)])

/-- The package variable `db`: the `sync.Once` (true once its function has been
run) and the embedded `Database` handle (nil is `none`). -/
structure DB where
  once : Bool
  Database : Option Store

/-- Value of `db` at process start. -/
def DB.zero : DB := ⟨false, none⟩

/-- Go `database.initDB`; `connect` is what `sqlx.Connect` answers at this call. -/
def initDB (connect : Except Error Store) (db : DB) : Option Error × DB :=
  match connect with
  | .error err => (some (err.wrap "failed to connect to database"), db)
  | .ok d => (none, { db with Database := some d })

/-- Go `database.GetDB`; `connect` is what `sqlx.Connect` would answer if it were
called during this call. `db.Do` runs `initDB` only while the once-guard is unset
and sets it. -/
def GetDB (connect : Except Error Store) (db : DB) : Except Error Store × DB × List Event :=
  let done : Option Error × DB × List Event :=
    if db.once then (none, db, [])
    else
      let r := initDB connect { db with once := true }
      (r.1, r.2, [Event.connect])
  match done with
  | (some err, db1, ev) => (.error (err.wrap "failed to initialize DB"), db1, ev)
  | (none, db1, ev) =>
    match db1.Database with
    | none => (.error (Error.new "database was not initialized"), db1, ev)
    | some d => (.ok d, db1, ev)

/-- State of `db` after a sequence of `GetDB` calls, each with the answer
`sqlx.Connect` would give during that call. -/
def GetDBRun (db : DB) : List (Except Error Store) → DB
  | [] => db
  | connect :: rest => GetDBRun (GetDB connect db).2.1 rest

/-! ## `strconv.Atoi` (Go standard library, 64-bit `int`) -/

/-- The digit loop of `strconv.ParseUint` in base 10 with 64-bit range: the first
byte that is not a decimal digit is a syntax error, a value above `2^64 - 1` is a
range error; whichever comes first in the text is reported. -/
def parseDigits (s0 : String) : List Char → Nat → Except Error Nat
  | [], n => .ok n
  | c :: cs, n =>
    if c.isDigit then
      if n * 10 + (c.toNat - 48) > 2 ^ 64 - 1 then .error (Error.numError "Atoi" s0 ErrRange)
      else parseDigits s0 cs (n * 10 + (c.toNat - 48))
    else .error (Error.numError "Atoi" s0 ErrSyntax)

/-- Go `strconv.Atoi` for a 64-bit `int`: an optional sign, then at least one
decimal digit, the value within `[-2^63, 2^63 - 1]`. -/
def Atoi (s : String) : Except Error Int :=
  let signed : Bool × List Char :=
    match s.toList with
    | '-' :: rest => (true, rest)
    | '+' :: rest => (false, rest)
    | cs => (false, cs)
  if signed.2 = [] then .error (Error.numError "Atoi" s ErrSyntax)
  else
    match parseDigits s signed.2 0 with
    | .error err => .error err
    | .ok un =>
      if signed.1 then
        if un > 2 ^ 63 then .error (Error.numError "Atoi" s ErrRange) else .ok (-(un : Int))
      else
        if un ≥ 2 ^ 63 then .error (Error.numError "Atoi" s ErrRange) else .ok (un : Int)

/-! ## Package `api` -/

/-- Go `http.StatusOK`. -/
def StatusOK : Nat := 200

/-- Go `http.StatusBadRequest`. -/
def StatusBadRequest : Nat := 400

/-- Go `http.StatusNotFound`. -/
def StatusNotFound : Nat := 404

/-- Go `http.StatusInternalServerError`. -/
def StatusInternalServerError : Nat := 500

/-- Payload handed to `ctx.JSON`. `apiError` carries the error whose `Error()`
text fills the field (`errors.New s` for a literal text `s`). -/
inductive Body where
  | apiError (Error : Error)
  | oid (o : OID)
  | oids (os : List OID)
  | relation (r : Relation)

/-- Effect of `ctx.JSON(status, body)`. -/
structure Response where
  status : Nat
  body : Body

/-- The `switch queryType` of `searchOID`, run only for a non-empty keyword. -/
def searchType (keyword queryType : String) (oidSearch : OIDSearch) :
    Except Response OIDSearch :=
  if keyword ≠ "" then
    if queryType = "oid" then .ok { oidSearch with OID := some keyword }
    else if queryType = "name" then .ok { oidSearch with Name := some keyword }
    else if queryType = "any" ∨ queryType = "" then .ok { oidSearch with Any := some keyword }
    else .error ⟨StatusBadRequest, .apiError (Error.new "invalid queryType")⟩
  else .ok oidSearch

/-- The `limit` block of `searchOID`. -/
def searchLimit (limit : String) (oidSearch : OIDSearch) : Except Response OIDSearch :=
  if limit ≠ "" then
    match Atoi limit with
    | .error err => .error ⟨StatusBadRequest, .apiError (err.wrap "limit is not an integer")⟩
    | .ok limitInt => .ok { oidSearch with Limit := some limitInt }
  else .ok oidSearch

/-- Go `api.searchOID`; `keyword`, `queryType` and `limit` are the three
`ctx.QueryParam` values (empty when the parameter is absent). -/
def searchOID (keyword queryType limit : String) (connect : Except Error Store) (db : DB) :
    Response × DB × List Event :=
  match searchType keyword queryType {} with
  | .error resp => (resp, db, [])
  | .ok typed =>
    match searchLimit limit typed with
    | .error resp => (resp, db, [])
    | .ok oidSearch =>
      match GetDB connect db with
      | (.error err, db1, ev) =>
        (⟨StatusInternalServerError, .apiError (err.wrap "failed to get db")⟩, db1, ev)
      | (.ok d, db1, ev) =>
        match SearchOID d oidSearch with
        | (.error err, ev2) => (⟨StatusBadRequest, .apiError err⟩, db1, ev ++ ev2)
        | (.ok oids, ev2) =>
          if oids.length = 0 then
            (⟨StatusNotFound, .apiError (Error.new "no result")⟩, db1, ev ++ ev2)
          else (⟨StatusOK, .oids oids⟩, db1, ev ++ ev2)

/-- Go `api.getOID`; `wantedOID` is `ctx.Param("oid")`. -/
def getOID (wantedOID : String) (connect : Except Error Store) (db : DB) :
    Response × DB × List Event :=
  match GetDB connect db with
  | (.error err, db1, ev) =>
    (⟨StatusInternalServerError, .apiError (err.wrap "failed to get db")⟩, db1, ev)
  | (.ok d, db1, ev) =>
    match GetOID d wantedOID with
    | (.error err, ev2) => (⟨StatusBadRequest, .apiError err⟩, db1, ev ++ ev2)
    | (.ok oid, ev2) => (⟨StatusOK, .oid oid⟩, db1, ev ++ ev2)

/-- Go `api.getOIDRelation`, the loop of the adapter bounded by `fuel`. -/
def getOIDRelation (fuel : Nat) (wantedOID : String) (connect : Except Error Store) (db : DB) :
    Option (Response × DB × List Event) :=
  match GetDB connect db with
  | (.error err, db1, ev) =>
    some (⟨StatusInternalServerError, .apiError (err.wrap "failed to get db")⟩, db1, ev)
  | (.ok d, db1, ev) =>
    match GetOIDRelation fuel d wantedOID with
    | none => none
    | some (.error err, ev2) => some (⟨StatusBadRequest, .apiError err⟩, db1, ev ++ ev2)
    | some (.ok oids, ev2) => some (⟨StatusOK, .relation oids⟩, db1, ev ++ ev2)

/-- Go `api.getOIDParent`. -/
def getOIDParent (wantedOID : String) (connect : Except Error Store) (db : DB) :
    Response × DB × List Event :=
  match GetDB connect db with
  | (.error err, db1, ev) =>
    (⟨StatusInternalServerError, .apiError (err.wrap "failed to get db")⟩, db1, ev)
  | (.ok d, db1, ev) =>
    match GetOIDParent d wantedOID with
    | (.error err, ev2) => (⟨StatusBadRequest, .apiError err⟩, db1, ev ++ ev2)
    | (.ok oids, ev2) => (⟨StatusOK, .oid oids⟩, db1, ev ++ ev2)

/-- Go `api.getOIDSiblings`. -/
def getOIDSiblings (wantedOID : String) (connect : Except Error Store) (db : DB) :
    Response × DB × List Event :=
  match GetDB connect db with
  | (.error err, db1, ev) =>
    (⟨StatusInternalServerError, .apiError (err.wrap "failed to get db")⟩, db1, ev)
  | (.ok d, db1, ev) =>
    match GetOIDSiblings d wantedOID with
    | (.error err, ev2) => (⟨StatusBadRequest, .apiError err⟩, db1, ev ++ ev2)
    | (.ok oids, ev2) =>
      if oids.length = 0 then
        (⟨StatusNotFound, .apiError (Error.new "no result")⟩, db1, ev ++ ev2)
      else (⟨StatusOK, .oids oids⟩, db1, ev ++ ev2)

/-- Go `api.getOIDChildren`. -/
def getOIDChildren (wantedOID : String) (connect : Except Error Store) (db : DB) :
    Response × DB × List Event :=
  match GetDB connect db with
  | (.error err, db1, ev) =>
    (⟨StatusInternalServerError, .apiError (err.wrap "failed to get db")⟩, db1, ev)
  | (.ok d, db1, ev) =>
    match GetOIDChildren d wantedOID with
    | (.error err, ev2) => (⟨StatusBadRequest, .apiError err⟩, db1, ev ++ ev2)
    | (.ok oids, ev2) =>
      if oids.length = 0 then
        (⟨StatusNotFound, .apiError (Error.new "no result")⟩, db1, ev ++ ev2)
      else (⟨StatusOK, .oids oids⟩, db1, ev ++ ev2)

/-! ## Sample stores -/

/-- A three-node hierarchy: `iso` (1) above `org` (1.3) above `dod` (1.3.6) and
`misc` (1.3.9). The parent column of the root is NULL, so its parent lookup
fails in the scan. -/
def sampleStore : Store where
  getNode q :=
    match q.args with
    | ["1"] => .ok ⟨"iso", "1", "OBJECT IDENTIFIER"⟩
    | ["1.3"] => .ok ⟨"org", "1.3", "OBJECT IDENTIFIER"⟩
    | ["1.3.6"] => .ok ⟨"dod", "1.3.6", "OBJECT IDENTIFIER"⟩
    | _ => .error (Error.new "sql: no rows in result set")
  getName q :=
    match q.args with
    | ["1.3"] => .ok ⟨"iso", "1"⟩
    | ["1.3.6"] => .ok ⟨"org", "1.3"⟩
    | _ => .error (Error.new "sql: Scan error on column index 0, name \"name\"")
  selectDescriptions q :=
    match q.args with
    | ["1.3"] => .ok [⟨"SNMPv2-SMI", "org"⟩]
    | _ => .ok []
  selectNames q :=
    match q.args with
    | ["1"] => .ok [⟨"org", "1.3"⟩]
    | ["1.3"] => .ok [⟨"dod", "1.3.6"⟩, ⟨"misc", "1.3.9"⟩]
    | ["1.3.6"] => .ok []
    | _ => .ok [⟨"iso", "1"⟩, ⟨"org", "1.3"⟩]

/-- A store in which the parent row of node `1` carries an empty path (an empty
text, not NULL). -/
def blankParentStore : Store where
  getNode q :=
    match q.args with
    | ["1"] => .ok ⟨"iso", "1", "OBJECT IDENTIFIER"⟩
    | _ => .error (Error.new "sql: no rows in result set")
  getName q :=
    match q.args with
    | ["1"] => .ok ⟨"top", ""⟩
    | _ => .error (Error.new "sql: no rows in result set")
  selectDescriptions _ := .ok []
  selectNames _ := .ok []

/-- A store whose every statement fails with a driver error. -/
def downStore : Store where
  getNode _ := .error (Error.new "driver: bad connection")
  getName _ := .error (Error.new "driver: bad connection")
  selectDescriptions _ := .error (Error.new "driver: bad connection")
  selectNames _ := .error (Error.new "driver: bad connection")

/-- A store in which the parent lookup of `1.3` fails with a driver error although
`1.3` lies below `1`. -/
def flakyParentStore : Store where
  getNode q :=
    match q.args with
    | ["1"] => .ok ⟨"iso", "1", "OBJECT IDENTIFIER"⟩
    | ["1.3"] => .ok ⟨"org", "1.3", "OBJECT IDENTIFIER"⟩
    | ["1.3.6"] => .ok ⟨"dod", "1.3.6", "OBJECT IDENTIFIER"⟩
    | _ => .error (Error.new "sql: no rows in result set")
  getName q :=
    match q.args with
    | ["1.3.6"] => .ok ⟨"org", "1.3"⟩
    | _ => .error (Error.new "driver: bad connection")
  selectDescriptions _ := .ok []
  selectNames _ := .ok []

/-- A store whose node `1` is its own parent. -/
def cyclicStore : Store where
  getNode q :=
    match q.args with
    | ["1"] => .ok ⟨"loop", "1", "OBJECT IDENTIFIER"⟩
    | _ => .error (Error.new "sql: no rows in result set")
  getName q :=
    match q.args with
    | ["1"] => .ok ⟨"loop", "1"⟩
    | _ => .error (Error.new "sql: no rows in result set")
  selectDescriptions _ := .ok []
  selectNames _ := .ok []

/-- The cyclic store of `cyclicStore`, except that every list statement (the
children statement among them) fails. -/
def cyclicNoChildrenStore : Store where
  getNode := cyclicStore.getNode
  getName := cyclicStore.getName
  selectDescriptions _ := .ok []
  selectNames _ := .error (Error.new "driver: bad connection")

/-! ## Notions used to state the properties of the relation tree -/

/-- Follow the sole child `k` times from a node: the identifiers of the nodes
passed, top first, and the node reached; `none` when a node on the way does not
have exactly one child. -/
def followSole : Nat → Relation → Option (List OID × Relation)
  | 0, r => some ([], r)
  | k + 1, r =>
    match r.Children with
    | [c] => (followSole k c).map (fun out => (r.OID :: out.1, out.2))
    | _ => none

/-- The finite parent chain of a path: `ParentChain d p [a1, ..., ak]` says that
the repeated parent lookups from `p` report `a1`, then `a2` from the path of `a1`,
and so on, that the lookup from the path of `ak` fails, and that the record fetch
succeeds for `p` and for the path of every `ai`. -/
def ParentChain (d : Store) : String → List OID → Prop
  | p, [] => (∃ r, (GetOID d p).1 = .ok r) ∧ ∃ e, (GetOIDParent d p).1 = .error e
  | p, a :: rest =>
    (∃ r, (GetOID d p).1 = .ok r) ∧ (GetOIDParent d p).1 = .ok a ∧ ParentChain d a.OID rest

/-- Path reached from `p` by `n` successive parent lookups, `none` when one of
them fails. -/
def ancestorPath (d : Store) : Nat → String → Option String
  | 0, p => some p
  | n + 1, p =>
    match (GetOIDParent d p).1 with
    | .ok a => ancestorPath d n a.OID
    | .error _ => none

mutual
/-- Number of levels of a relation tree. -/
def Relation.depth : Relation → Nat
  | ⟨_, cs⟩ => 1 + Relation.depthList cs
/-- Largest depth among a list of relation trees, `0` for the empty list. -/
def Relation.depthList : List Relation → Nat
  | [] => 0
  | c :: cs => max c.depth (Relation.depthList cs)
end

/-! ## Facts about the lookups -/

theorem GetOIDParent_of_ne (d : Store) (P : String) (hP : P ≠ "") :
    GetOIDParent d P =
      match d.getName (parentQuery P) with
      | .error err =>
        (.error (err.wrap "failed to query database for parent"), [.get (parentQuery P)])
      | .ok parent => (.ok parent.scan, [.get (parentQuery P)]) := by
  simp [GetOIDParent, hP]

theorem GetOID_ok_iff (d : Store) (P : String) (hP : P ≠ "") :
    (∃ r, (GetOID d P).1 = .ok r) ↔
      ((∃ row, d.getNode (oidQuery P) = .ok row) ∧
        ∃ ds, d.selectDescriptions (descriptionQuery P) = .ok ds) := by
  unfold GetOID
  simp only [hP, if_false]
  cases hn : d.getNode (oidQuery P) with
  | error e => simp
  | ok row =>
    cases hd : d.selectDescriptions (descriptionQuery P) with
    | error e => simp
    | ok ds =>
      rcases hp : GetOIDParent d P with ⟨r, ev⟩
      cases r <;> simp

theorem GetOID_parent (d : Store) (P : String) (r : OID) (h : (GetOID d P).1 = .ok r) :
    ∃ row ds, d.getNode (oidQuery P) = .ok row ∧
      d.selectDescriptions (descriptionQuery P) = .ok ds ∧
      r = OID.mk row.name row.oid (some (Properties.mk row.objectType ds
        (match (GetOIDParent d P).1 with
          | .ok p => some p
          | .error _ => none))) := by
  unfold GetOID at h
  by_cases hP : P = ""
  · simp [hP] at h
  · simp only [hP, if_false] at h
    cases hn : d.getNode (oidQuery P) with
    | error e => simp [hn] at h
    | ok row =>
      cases hd : d.selectDescriptions (descriptionQuery P) with
      | error e => simp [hn, hd] at h
      | ok ds =>
        rcases hp : GetOIDParent d P with ⟨pr, ev⟩
        cases pr with
        | error e =>
          simp only [hn, hd, hp] at h
          exact ⟨row, ds, rfl, rfl, by injection h with h; exact h.symm⟩
        | ok p =>
          simp only [hn, hd, hp] at h
          exact ⟨row, ds, rfl, rfl, by injection h with h; exact h.symm⟩

theorem GetOID_error_ne_empty (d : Store) (P : String) (hP : P ≠ "") :
    (GetOID d P).1 ≠ .error errEmptyOID := by
  unfold GetOID
  simp only [hP, if_false]
  cases hn : d.getNode (oidQuery P) with
  | error e => simp [errEmptyOID]
  | ok row =>
    cases hd : d.selectDescriptions (descriptionQuery P) with
    | error e => simp [errEmptyOID]
    | ok ds =>
      rcases hp : GetOIDParent d P with ⟨r, ev⟩
      cases r <;> simp

theorem GetOIDParent_error_ne_empty (d : Store) (P : String) (hP : P ≠ "") :
    (GetOIDParent d P).1 ≠ .error errEmptyOID := by
  rw [GetOIDParent_of_ne d P hP]
  cases d.getName (parentQuery P) <;> simp [errEmptyOID]

theorem GetOIDSiblings_error_ne_empty (d : Store) (P : String) (hP : P ≠ "") :
    (GetOIDSiblings d P).1 ≠ .error errEmptyOID := by
  unfold GetOIDSiblings
  simp only [hP, if_false]
  cases d.selectNames (siblingsQuery P) <;> simp [errEmptyOID]

theorem GetOIDChildren_error_ne_empty (d : Store) (P : String) (hP : P ≠ "") :
    (GetOIDChildren d P).1 ≠ .error errEmptyOID := by
  unfold GetOIDChildren
  simp only [hP, if_false]
  cases d.selectNames (childrenQuery P) <;> simp [errEmptyOID]

/-! ## Facts about the ascent loop -/

/-- The parent reference of a fetched record is the scanned row of the parent
statement. -/
theorem GetOID_parent_row (d : Store) (q : String) (r : OID) (h : (GetOID d q).1 = .ok r)
    (props : Properties) (parent : OID) (hprops : r.Properties = some props)
    (hpar : props.Parent = some parent) :
    q ≠ "" ∧ ∃ row, d.getName (parentQuery q) = .ok row ∧ parent = row.scan := by
  have hq : q ≠ "" := by
    intro hq
    simp [GetOID, hq] at h
  refine ⟨hq, ?_⟩
  obtain ⟨row, ds, -, -, hr⟩ := GetOID_parent d q r h
  subst hr
  simp only [OID.Properties, Option.some.injEq] at hprops
  subst hprops
  rw [GetOIDParent_of_ne d q hq] at hpar
  cases hrow : d.getName (parentQuery q) with
  | error e => simp [Properties.Parent, hrow] at hpar
  | ok row =>
    simp only [Properties.Parent, hrow, Option.some.injEq] at hpar
    exact ⟨row, rfl, hpar.symm⟩

theorem ascend_ne_empty (d : Store)
    (hstore : ∀ q row, d.getName (parentQuery q) = .ok row → row.oid ≠ "") :
    ∀ (fuel : Nat) (s : Ascent),
      (∀ props parent, s.currentOID.Properties = some props →
        props.Parent = some parent → parent.OID ≠ "") →
      ∀ out, ascend d fuel s = some out → out.1 ≠ .error errEmptyOID := by
  intro fuel
  induction fuel with
  | zero => intro s _ out h; simp [ascend] at h
  | succ n ih =>
    intro s hinv out h
    unfold ascend ascendStep at h
    cases hprops : s.currentOID.Properties with
    | none =>
      simp only [hprops, Option.some.injEq] at h
      subst h
      simp [errEmptyOID, errNilProperties]
    | some props =>
      cases hpar : props.Parent with
      | none =>
        simp only [hprops, hpar, Option.some.injEq] at h
        subst h
        simp
      | some parent =>
        have hne : parent.OID ≠ "" := hinv props parent hprops hpar
        rcases hget : GetOID d parent.OID with ⟨r, ev⟩
        cases r with
        | error e =>
          simp only [hprops, hpar, hget, Option.some.injEq] at h
          subst h
          have := GetOID_error_ne_empty d parent.OID hne
          rw [hget] at this
          have he : e ≠ errEmptyOID := fun hc => this (by simp [hc])
          simpa using he
        | ok cur =>
          simp only [hprops, hpar, hget, Option.map_eq_some'] at h
          obtain ⟨out1, hout1, rfl⟩ := h
          refine ih _ ?_ out1 hout1
          intro props1 parent1 hp1 hpar1
          have hcur : (GetOID d parent.OID).1 = .ok cur := by rw [hget]
          obtain ⟨-, row, hrow, rfl⟩ := GetOID_parent_row d parent.OID cur hcur props1 parent1 hp1 hpar1
          exact hstore _ row hrow

theorem followSole_snoc : ∀ (k : Nat) (t : Relation) (nodes : List OID) (b c : Relation),
    followSole k t = some (nodes, b) → b.Children = [c] →
    followSole (k + 1) t = some (nodes ++ [b.OID], c) := by
  intro k
  induction k with
  | zero =>
    intro t nodes b c h hc
    simp only [followSole, Option.some.injEq, Prod.mk.injEq] at h
    obtain ⟨rfl, rfl⟩ := h
    simp [followSole, hc]
  | succ k ih =>
    intro t nodes b c h hc
    rw [followSole] at h
    rw [followSole]
    split at h
    · rename_i c1 hc1
      simp only [Option.map_eq_some'] at h
      obtain ⟨out, hout, hh⟩ := h
      rcases out with ⟨l, b1⟩
      simp only [Prod.mk.injEq] at hh
      obtain ⟨rfl, rfl⟩ := hh
      simp [hc1, ih c1 l b1 c hout hc]
    · simp at h

theorem GetOIDParent_strip (d : Store) (p : String) (a : OID)
    (h : (GetOIDParent d p).1 = .ok a) : OID.mk a.Name a.OID none = a := by
  unfold GetOIDParent at h
  split at h
  · simp at h
  · split at h
    · simp at h
    · simp only [Except.ok.injEq] at h
      subst h
      rfl

theorem GetOID_ne_empty (d : Store) (p : String) (r : OID) (h : (GetOID d p).1 = .ok r) :
    p ≠ "" := by
  intro hp
  simp [GetOID, hp] at h

/-- One pass of the loop on the record of `p`, according to the parent lookup
of `p`. -/
theorem ascendStep_record (d : Store) (p : String) (cur : OID) (res : Relation)
    (hcur : (GetOID d p).1 = .ok cur) :
    (∀ e, (GetOIDParent d p).1 = .error e → ascendStep d ⟨cur, res⟩ = (.ret (.ok res), [])) ∧
    (∀ a, (GetOIDParent d p).1 = .ok a →
      ascendStep d ⟨cur, res⟩ =
        match GetOID d a.OID with
        | (.error err, ev) => (.ret (.error err), ev)
        | (.ok cur1, ev) => (.next ⟨cur1, ⟨OID.mk a.Name a.OID none, [res]⟩⟩, ev)) := by
  obtain ⟨row, ds, -, -, hr⟩ := GetOID_parent d p cur hcur
  subst hr
  constructor
  · intro e he
    simp [ascendStep, OID.Properties, Properties.Parent, he]
  · intro a ha
    simp [ascendStep, OID.Properties, Properties.Parent, ha]

theorem ascend_chain (d : Store) : ∀ (parents : List OID) (p : String) (cur : OID)
    (res : Relation) (fuel : Nat),
    (GetOID d p).1 = .ok cur → ParentChain d p parents → parents.length < fuel →
    ∃ tree ev, ascend d fuel ⟨cur, res⟩ = some (.ok tree, ev) ∧
      followSole parents.length tree = some (parents.reverse, res) ∧
      (parents = [] → tree = res ∧ ev = []) := by
  intro parents
  induction parents with
  | nil =>
    intro p cur res fuel hcur hchain hfuel
    obtain ⟨-, e, he⟩ := hchain
    obtain ⟨n, rfl⟩ : ∃ n, fuel = n + 1 := ⟨fuel - 1, by simp at hfuel; omega⟩
    refine ⟨res, [], ?_, rfl, fun _ => ⟨rfl, rfl⟩⟩
    rw [ascend, (ascendStep_record d p cur res hcur).1 e he]
  | cons a rest ih =>
    intro p cur res fuel hcur hchain hfuel
    obtain ⟨-, ha, hrest⟩ := hchain
    obtain ⟨n, rfl⟩ : ∃ n, fuel = n + 1 := ⟨fuel - 1, by simp at hfuel; omega⟩
    have hrest1 := hrest
    have hget : ∃ cur1, (GetOID d a.OID).1 = .ok cur1 := by
      cases rest with
      | nil => exact hrest1.1
      | cons b rest1 => exact hrest1.1
    obtain ⟨cur1, hcur1⟩ := hget
    rcases hg : GetOID d a.OID with ⟨r1, ev1⟩
    rw [hg] at hcur1
    simp only at hcur1
    subst hcur1
    have hcur1 : (GetOID d a.OID).1 = .ok cur1 := by rw [hg]
    have hlen : rest.length < n := by simp at hfuel; omega
    obtain ⟨tree, ev, hasc, hfollow, -⟩ :=
      ih a.OID cur1 ⟨OID.mk a.Name a.OID none, [res]⟩ n hcur1 hrest hlen
    refine ⟨tree, ev1 ++ ev, ?_, ?_, by simp⟩
    · rw [ascend, (ascendStep_record d p cur res hcur).2 a ha, hg]
      simp [hasc]
    · have := followSole_snoc rest.length tree rest.reverse
        ⟨OID.mk a.Name a.OID none, [res]⟩ res hfollow rfl
      simpa [GetOIDParent_strip d p a ha] using this

theorem ascend_ok_spine (d : Store) : ∀ (fuel : Nat) (s : Ascent) (tree : Relation)
    (ev : List Event), ascend d fuel s = some (.ok tree, ev) →
    ∃ k s1 nodes, ascendIter d k s = some s1 ∧ s1.res = tree ∧
      (∃ props, s1.currentOID.Properties = some props ∧ props.Parent = none) ∧
      followSole k tree = some (nodes, s.res) := by
  intro fuel
  induction fuel with
  | zero => intro s tree ev h; simp [ascend] at h
  | succ n ih =>
    intro s tree ev h
    rw [ascend] at h
    rcases hstep : ascendStep d s with ⟨st, ev1⟩
    cases st with
    | ret r =>
      simp only [hstep, Option.some.injEq, Prod.mk.injEq] at h
      obtain ⟨rfl, rfl⟩ := h
      refine ⟨0, s, [], rfl, ?_⟩
      unfold ascendStep at hstep
      cases hprops : s.currentOID.Properties with
      | none => simp [hprops] at hstep
      | some props =>
        cases hpar : props.Parent with
        | none =>
          simp only [hprops, hpar, Prod.mk.injEq, Step.ret.injEq, Except.ok.injEq] at hstep
          exact ⟨hstep.1, ⟨props, rfl, hpar⟩, by rw [followSole, hstep.1]⟩
        | some parent =>
          rcases hg : GetOID d parent.OID with ⟨r1, ev2⟩
          cases r1 <;> simp [hprops, hpar, hg] at hstep
    | next s2 =>
      simp only [hstep, Option.map_eq_some'] at h
      obtain ⟨out, hout, hh⟩ := h
      rcases out with ⟨r, ev2⟩
      simp only [Prod.mk.injEq] at hh
      obtain ⟨rfl, -⟩ := hh
      obtain ⟨k, s1, nodes, hiter, hres, hroot, hfollow⟩ := ih s2 tree ev2 hout
      have hs2 : s2.res.Children = [s.res] := by
        unfold ascendStep at hstep
        cases hprops : s.currentOID.Properties with
        | none => simp [hprops] at hstep
        | some props =>
          cases hpar : props.Parent with
          | none => simp [hprops, hpar] at hstep
          | some parent =>
            rcases hg : GetOID d parent.OID with ⟨r1, ev3⟩
            cases r1 with
            | error e => simp [hprops, hpar, hg] at hstep
            | ok cur1 =>
              simp only [hprops, hpar, hg, Prod.mk.injEq, Step.next.injEq] at hstep
              rw [← hstep.1]
      refine ⟨k + 1, s1, nodes ++ [s2.res.OID], ?_, hres, hroot, ?_⟩
      · rw [ascendIter, hstep]
        exact hiter
      · exact followSole_snoc k tree nodes s2.res s.res hfollow hs2

theorem ascend_of_iter (d : Store) : ∀ (n : Nat) (s s1 : Ascent) (fuel : Nat),
    ascendIter d n s = some s1 →
    (ascend d (n + fuel) s).map Prod.fst = (ascend d fuel s1).map Prod.fst := by
  intro n
  induction n with
  | zero =>
    intro s s1 fuel h
    simp only [ascendIter, Option.some.injEq] at h
    subst h
    simp
  | succ n ih =>
    intro s s1 fuel h
    rw [ascendIter] at h
    rcases hstep : ascendStep d s with ⟨st, ev1⟩
    cases st with
    | ret r => simp [hstep] at h
    | next s2 =>
      simp only [hstep] at h
      have : n + 1 + fuel = (n + fuel) + 1 := by omega
      rw [this, ascend, hstep]
      simp only [Option.map_map]
      rw [← ih s2 s1 fuel h]
      cases ascend d (n + fuel) s2 <;> simp

theorem GetOIDRelation_of_iter (d : Store) (P : String) (hP : P ≠ "") (cur : OID)
    (children : List OID) (n fuel : Nat) (s : Ascent)
    (hcur : (GetOID d P).1 = .ok cur) (hch : (GetOIDChildren d P).1 = .ok children)
    (hiter : ascendIter d n (initialAscent cur children) = some s) :
    (GetOIDRelation (n + fuel) d P).map Prod.fst = (ascend d fuel s).map Prod.fst := by
  rcases hg : GetOID d P with ⟨r1, ev1⟩
  rcases hc : GetOIDChildren d P with ⟨r2, ev2⟩
  rw [hg] at hcur
  rw [hc] at hch
  simp only at hcur hch
  subst hcur hch
  rw [← ascend_of_iter d n _ s fuel hiter]
  simp only [GetOIDRelation, hP, if_false, hg, hc, Option.map_map]
  cases ascend d (n + fuel) (initialAscent cur children) <;> simp

theorem ancestorPath_add (d : Store) : ∀ (m n : Nat) (p : String),
    ancestorPath d (m + n) p = (ancestorPath d m p).bind (ancestorPath d n) := by
  intro m
  induction m with
  | zero => intro n p; simp [ancestorPath]
  | succ m ih =>
    intro n p
    have : m + 1 + n = (m + n) + 1 := by omega
    rw [this, ancestorPath, ancestorPath]
    cases (GetOIDParent d p).1 with
    | error e => simp
    | ok a => simp [ih]

/-- Along a cyclic chain every record fetch and every parent lookup succeeds, at
every distance from the start. -/
theorem cyclic_chain_total (d : Store) (P : String) (i j : Nat) (hij : i < j)
    (hcyc : ancestorPath d j P = ancestorPath d i P)
    (hchain : ∀ n, n < j → ∃ p cur a, ancestorPath d n P = some p ∧
      (GetOID d p).1 = .ok cur ∧ (GetOIDParent d p).1 = .ok a) :
    ∀ n, ∃ p cur a, ancestorPath d n P = some p ∧
      (GetOID d p).1 = .ok cur ∧ (GetOIDParent d p).1 = .ok a := by
  intro n
  induction n using Nat.strong_induction_on with
  | _ n ih =>
    by_cases hn : n < j
    · exact hchain n hn
    · have h1 : n = j + (n - j) := by omega
      have h2 : ancestorPath d n P = ancestorPath d (i + (n - j)) P := by
        rw [ancestorPath_add d i (n - j) P, ← hcyc, ← ancestorPath_add d j (n - j) P, ← h1]
      rw [h2]
      exact ih (i + (n - j)) (by omega)

theorem depth_wrap (o : OID) (r : Relation) : (Relation.mk o [r]).depth = r.depth + 1 := by
  simp [Relation.depth, Relation.depthList]
  omega

theorem ascend_total_chain (d : Store) : ∀ (n : Nat) (p : String) (cur : OID) (res : Relation),
    (GetOID d p).1 = .ok cur →
    (∀ m, ∃ q c a, ancestorPath d m p = some q ∧
      (GetOID d q).1 = .ok c ∧ (GetOIDParent d q).1 = .ok a) →
    ascend d n ⟨cur, res⟩ = none ∧
    ∃ s, ascendIter d n ⟨cur, res⟩ = some s ∧ s.res.depth = res.depth + n := by
  intro n
  induction n with
  | zero =>
    intro p cur res hcur hgood
    exact ⟨rfl, ⟨cur, res⟩, rfl, rfl⟩
  | succ n ih =>
    intro p cur res hcur hgood
    obtain ⟨q0, c0, a, hq0, -, ha⟩ := hgood 0
    simp only [ancestorPath, Option.some.injEq] at hq0
    subst hq0
    obtain ⟨q1, c1, a1, hq1, hc1, -⟩ := hgood 1
    simp only [ancestorPath, ha, Option.some.injEq] at hq1
    subst hq1
    have hgood1 : ∀ m, ∃ q c b, ancestorPath d m a.OID = some q ∧
        (GetOID d q).1 = .ok c ∧ (GetOIDParent d q).1 = .ok b := by
      intro m
      obtain ⟨q, c, b, hq, hc, hb⟩ := hgood (m + 1)
      simp only [ancestorPath, ha] at hq
      exact ⟨q, c, b, hq, hc, hb⟩
    rcases hg : GetOID d a.OID with ⟨r1, ev1⟩
    rw [hg] at hc1
    simp only at hc1
    subst hc1
    have hc1 : (GetOID d a.OID).1 = .ok c1 := by rw [hg]
    have hstep := (ascendStep_record d p cur res hcur).2 a ha
    rw [hg] at hstep
    simp only at hstep
    obtain ⟨hnone, s, hs, hdepth⟩ := ih a.OID c1 ⟨OID.mk a.Name a.OID none, [res]⟩ hc1 hgood1
    refine ⟨?_, s, ?_, ?_⟩
    · rw [ascend, hstep]
      simp [hnone]
    · rw [ascendIter, hstep]
      exact hs
    · rw [hdepth, depth_wrap]
      omega

/-! ## Facts about `GetDB` and the search handler -/

theorem GetDB_after_once (c : Except Error Store) (h : Option Store) :
    GetDB c ⟨true, h⟩ =
      match h with
      | none => (.error (Error.new "database was not initialized"), ⟨true, none⟩, [])
      | some d => (.ok d, ⟨true, some d⟩, []) := by
  cases h <;> rfl

theorem GetDBRun_after_once (h : Option Store) (cs : List (Except Error Store)) :
    GetDBRun ⟨true, h⟩ cs = ⟨true, h⟩ := by
  induction cs with
  | nil => rfl
  | cons c cs ih =>
    have : (GetDB c ⟨true, h⟩).2.1 = ⟨true, h⟩ := by
      rw [GetDB_after_once]; cases h <;> rfl
    simp only [GetDBRun, this, ih]

theorem searchQuery_limit (typed : OIDSearch) (n : Int) :
    ∃ pre, (searchQuery { typed with Limit := some n }).sql = pre ++ " LIMIT " ++ Itoa n := by
  unfold searchQuery limitQuery
  rcases typed with ⟨a, b, c, l⟩
  cases a with
  | some any => exact ⟨_, (String.append_assoc _ _ _).symm⟩
  | none =>
    cases b with
    | some name => exact ⟨_, (String.append_assoc _ _ _).symm⟩
    | none =>
      cases c with
      | some oid => exact ⟨_, (String.append_assoc _ _ _).symm⟩
      | none => exact ⟨_, (String.append_assoc _ _ _).symm⟩

theorem searchOID_sends (keyword queryType limit : String) (connect : Except Error Store)
    (db : DB) (typed os : OIDSearch) (d : Store) (db1 : DB) (ev : List Event)
    (ht : searchType keyword queryType {} = .ok typed) (hl : searchLimit limit typed = .ok os)
    (hdb : GetDB connect db = (.ok d, db1, ev)) :
    (searchOID keyword queryType limit connect db).2.2 = ev ++ [.select (searchQuery os)] ∧
    ((searchOID keyword queryType limit connect db).1.status = StatusBadRequest ↔
      ∃ e, (SearchOID d os).1 = .error e) := by
  unfold searchOID
  simp only [ht, hl, hdb]
  unfold SearchOID
  cases d.selectNames (searchQuery os) with
  | error e => simp
  | ok res =>
    cases res with
    | nil => simp [StatusNotFound, StatusBadRequest]
    | cons r rs => simp [StatusOK, StatusBadRequest]

theorem searchType_ok (keyword queryType : String)
    (h : queryType ∈ ["oid", "name", "any", ""]) :
    ∃ typed, searchType keyword queryType {} = .ok typed := by
  unfold searchType
  simp only [List.mem_cons, List.mem_singleton, List.not_mem_nil, or_false] at h
  rcases h with h | h | h | h <;> subst h <;> by_cases hk : keyword = "" <;> simp [hk]

theorem searchLimit_error (limit : String) (typed : OIDSearch) (resp : Response)
    (h : searchLimit limit typed = .error resp) :
    limit ≠ "" ∧ ∃ e, Atoi limit = .error e := by
  unfold searchLimit at h
  by_cases hl : limit = ""
  · simp [hl] at h
  · refine ⟨hl, ?_⟩
    cases ha : Atoi limit with
    | error e => exact ⟨e, rfl⟩
    | ok n => simp [hl, ha] at h

/-! ## The relation tree (C1, C2) -/

/-- C1. For a non-empty path `P` with a finite parent chain `a1, ..., ak` (every
record fetch along it succeeds, the parent lookup of `ak`, or of `P` when
`k = 0`, fails) and a successful children fetch, `GetOIDRelation` returns
successfully for every fuel above `k`; following the sole child `k` times from the
root of the returned tree passes exactly `ak, ..., a1` (names and paths as the
parent lookups report them), each with exactly one child, and reaches the node
built for `P` from its record and its children. For `k = 0` the tree is that
node alone and the only store calls are those of the record fetch and of the
children fetch. -/
theorem GetOIDRelation_spine (d : Store) (P : String) (parents : List OID) (fuel : Nat)
    (hP : P ≠ "") (hchain : ParentChain d P parents)
    (hchildren : ∃ cs, (GetOIDChildren d P).1 = .ok cs) (hfuel : parents.length < fuel) :
    ∃ cur children tree ev,
      (GetOID d P).1 = .ok cur ∧ (GetOIDChildren d P).1 = .ok children ∧
      GetOIDRelation fuel d P = some (.ok tree, ev) ∧
      followSole parents.length tree =
        some (parents.reverse,
          ⟨OID.mk cur.Name cur.OID none,
            children.map (fun child => ⟨OID.mk child.Name child.OID none, []⟩)⟩) ∧
      (parents = [] →
        tree = ⟨OID.mk cur.Name cur.OID none,
            children.map (fun child => ⟨OID.mk child.Name child.OID none, []⟩)⟩ ∧
        ev = (GetOID d P).2 ++ (GetOIDChildren d P).2) := by
  have hget : ∃ cur, (GetOID d P).1 = .ok cur := by
    cases parents with
    | nil => exact hchain.1
    | cons b rest => exact hchain.1
  obtain ⟨cur, hcur⟩ := hget
  obtain ⟨children, hch⟩ := hchildren
  obtain ⟨tree, ev, hasc, hfollow, hnil⟩ :=
    ascend_chain d parents P cur (initialAscent cur children).res fuel hcur hchain hfuel
  rcases hg : GetOID d P with ⟨r1, ev1⟩
  rcases hc : GetOIDChildren d P with ⟨r2, ev2⟩
  rw [hg] at hcur
  rw [hc] at hch
  simp only at hcur hch
  subst hcur hch
  refine ⟨cur, children, tree, ev1 ++ ev2 ++ ev, rfl, rfl, ?_, hfollow, ?_⟩
  · have : ascend d fuel (initialAscent cur children) = some (.ok tree, ev) := hasc
    simp [GetOIDRelation, hP, hg, hc, this]
  · intro hp
    obtain ⟨h1, h2⟩ := hnil hp
    subst h1 h2
    exact ⟨rfl, by simp⟩

/-- C1 on the sample store: the relation of `1.3`, whose chain is `1`. -/
theorem GetOIDRelation_spine_witness :
    "1.3" ≠ "" ∧ ParentChain sampleStore "1.3" [OID.mk "iso" "1" none] ∧
    ∃ cur children tree ev,
      (GetOID sampleStore "1.3").1 = .ok cur ∧
      (GetOIDChildren sampleStore "1.3").1 = .ok children ∧
      GetOIDRelation 2 sampleStore "1.3" = some (.ok tree, ev) ∧
      followSole [OID.mk "iso" "1" none].length tree =
        some ([OID.mk "iso" "1" none].reverse,
          ⟨OID.mk cur.Name cur.OID none,
            children.map (fun child => ⟨OID.mk child.Name child.OID none, []⟩)⟩) ∧
      ([OID.mk "iso" "1" none] = [] →
        tree = ⟨OID.mk cur.Name cur.OID none,
            children.map (fun child => ⟨OID.mk child.Name child.OID none, []⟩)⟩ ∧
        ev = (GetOID sampleStore "1.3").2 ++ (GetOIDChildren sampleStore "1.3").2) :=
  ⟨by decide, ⟨⟨_, rfl⟩, rfl, ⟨_, rfl⟩, ⟨_, rfl⟩⟩,
    GetOIDRelation_spine sampleStore "1.3" [OID.mk "iso" "1" none] 2 (by decide)
      ⟨⟨_, rfl⟩, rfl, ⟨_, rfl⟩, ⟨_, rfl⟩⟩ ⟨_, rfl⟩ (by decide)⟩

/-- C2. Whenever `GetOIDRelation` succeeds on `P`, the record fetch and the
children fetch of `P` succeeded, and the returned tree is the result of a number
`k` of completed ascent passes ending at a record without parent; following the
sole child `k` times from its root reaches the node built for `P`: it carries
the name and path of the record fetched for `P` and no properties, and its
children are the children of `P` mapped one by one, in order, to leaves with
that child's name and path, no properties and no children. -/
theorem GetOIDRelation_bottom (fuel : Nat) (d : Store) (P : String) (tree : Relation)
    (ev : List Event) (h : GetOIDRelation fuel d P = some (.ok tree, ev)) :
    ∃ cur children k s nodes,
      (GetOID d P).1 = .ok cur ∧ (GetOIDChildren d P).1 = .ok children ∧
      ascendIter d k (initialAscent cur children) = some s ∧ s.res = tree ∧
      (∃ props, s.currentOID.Properties = some props ∧ props.Parent = none) ∧
      followSole k tree =
        some (nodes,
          ⟨OID.mk cur.Name cur.OID none,
            children.map (fun child => ⟨OID.mk child.Name child.OID none, []⟩)⟩) ∧
      (children.map (fun child => (⟨OID.mk child.Name child.OID none, []⟩ : Relation))).length =
        children.length := by
  unfold GetOIDRelation at h
  by_cases hP : P = ""
  · simp [hP] at h
  · simp only [hP, if_false] at h
    rcases hg : GetOID d P with ⟨r1, ev1⟩
    cases r1 with
    | error e => simp [hg] at h
    | ok cur =>
      rcases hc : GetOIDChildren d P with ⟨r2, ev2⟩
      cases r2 with
      | error e => simp [hg, hc] at h
      | ok children =>
        simp only [hg, hc, Option.map_eq_some'] at h
        obtain ⟨out, hout, hh⟩ := h
        rcases out with ⟨r, ev3⟩
        simp only [Prod.mk.injEq] at hh
        obtain ⟨rfl, -⟩ := hh
        obtain ⟨k, s1, nodes, hiter, hres, hroot, hfollow⟩ :=
          ascend_ok_spine d fuel _ tree ev3 hout
        exact ⟨cur, children, k, s1, nodes, rfl, rfl, hiter, hres, hroot, hfollow, by simp⟩

/-- C2 on the sample store: the relation of `1.3` and its bottom node. -/
theorem GetOIDRelation_bottom_witness :
    (GetOIDRelation 3 sampleStore "1.3").map Prod.fst =
      some (.ok ⟨OID.mk "iso" "1" none, [⟨OID.mk "org" "1.3" none,
        [⟨OID.mk "dod" "1.3.6" none, []⟩, ⟨OID.mk "misc" "1.3.9" none, []⟩]⟩]⟩) ∧
    ∃ cur children k s nodes,
      (GetOID sampleStore "1.3").1 = .ok cur ∧
      (GetOIDChildren sampleStore "1.3").1 = .ok children ∧
      ascendIter sampleStore k (initialAscent cur children) = some s ∧
      s.res = ⟨OID.mk "iso" "1" none, [⟨OID.mk "org" "1.3" none,
        [⟨OID.mk "dod" "1.3.6" none, []⟩, ⟨OID.mk "misc" "1.3.9" none, []⟩]⟩]⟩ ∧
      (∃ props, s.currentOID.Properties = some props ∧ props.Parent = none) ∧
      followSole k ⟨OID.mk "iso" "1" none, [⟨OID.mk "org" "1.3" none,
        [⟨OID.mk "dod" "1.3.6" none, []⟩, ⟨OID.mk "misc" "1.3.9" none, []⟩]⟩]⟩ =
        some (nodes,
          ⟨OID.mk cur.Name cur.OID none,
            children.map (fun child => ⟨OID.mk child.Name child.OID none, []⟩)⟩) ∧
      (children.map (fun child => (⟨OID.mk child.Name child.OID none, []⟩ : Relation))).length =
        children.length :=
  ⟨rfl, GetOIDRelation_bottom 3 sampleStore "1.3" _ _ rfl⟩

/-! ## Error handling of the adapter (C3, C4, C5) -/

/-- C3 (amended). For every store, with the empty path each of the five lookups
returns the empty-path error and sends nothing to the store. For every store and
non-empty path `GetOID`, `GetOIDParent`, `GetOIDSiblings` and `GetOIDChildren`
never return that error, and `GetOIDRelation` does not return it as long as no
parent statement of the store answers with an empty path. -/
theorem empty_path_invalid_input (d : Store) (fuel : Nat) :
    (GetOID d "" = (.error errEmptyOID, []) ∧
      GetOIDRelation fuel d "" = some (.error errEmptyOID, []) ∧
      GetOIDParent d "" = (.error errEmptyOID, []) ∧
      GetOIDSiblings d "" = (.error errEmptyOID, []) ∧
      GetOIDChildren d "" = (.error errEmptyOID, [])) ∧
    (∀ P, P ≠ "" →
      (GetOID d P).1 ≠ .error errEmptyOID ∧
      (GetOIDParent d P).1 ≠ .error errEmptyOID ∧
      (GetOIDSiblings d P).1 ≠ .error errEmptyOID ∧
      (GetOIDChildren d P).1 ≠ .error errEmptyOID) ∧
    (∀ P, P ≠ "" →
      (∀ q row, d.getName (parentQuery q) = .ok row → row.oid ≠ "") →
      ∀ out, GetOIDRelation fuel d P = some out → out.1 ≠ .error errEmptyOID) := by
  refine ⟨⟨rfl, rfl, rfl, rfl, rfl⟩, fun P hP => ⟨GetOID_error_ne_empty d P hP,
    GetOIDParent_error_ne_empty d P hP, GetOIDSiblings_error_ne_empty d P hP,
    GetOIDChildren_error_ne_empty d P hP⟩, ?_⟩
  intro P hP hstore out h
  unfold GetOIDRelation at h
  simp only [hP, if_false] at h
  rcases hget : GetOID d P with ⟨r, ev⟩
  cases r with
  | error e =>
    simp only [hget, Option.some.injEq] at h
    subst h
    have := GetOID_error_ne_empty d P hP
    rw [hget] at this
    have he : e ≠ errEmptyOID := fun hc => this (by simp [hc])
    simpa using he
  | ok cur =>
    rcases hch : GetOIDChildren d P with ⟨c, ev2⟩
    cases c with
    | error e =>
      simp only [hget, hch, Option.some.injEq] at h
      subst h
      have := GetOIDChildren_error_ne_empty d P hP
      rw [hch] at this
      have he : e ≠ errEmptyOID := fun hc => this (by simp [hc])
      simpa using he
    | ok children =>
      simp only [hget, hch, Option.map_eq_some'] at h
      obtain ⟨out1, hout1, rfl⟩ := h
      refine ascend_ne_empty d hstore fuel _ ?_ out1 hout1
      intro props parent hp hpar
      have hcur : (GetOID d P).1 = .ok cur := by rw [hget]
      obtain ⟨-, row, hrow, rfl⟩ := GetOID_parent_row d P cur hcur props parent hp hpar
      exact hstore _ row hrow

/-- C3 (amended) at concrete stores: the empty-path half on the store whose parent
row carries an empty path, the non-empty half for the path `1.3` of the sample
store. -/
theorem empty_path_invalid_input_witness :
    (GetOID blankParentStore "" = (.error errEmptyOID, []) ∧
      GetOIDRelation 5 blankParentStore "" = some (.error errEmptyOID, []) ∧
      GetOIDParent blankParentStore "" = (.error errEmptyOID, []) ∧
      GetOIDSiblings blankParentStore "" = (.error errEmptyOID, []) ∧
      GetOIDChildren blankParentStore "" = (.error errEmptyOID, [])) ∧
    "1.3" ≠ "" ∧
    ((GetOID sampleStore "1.3").1 ≠ .error errEmptyOID ∧
      (GetOIDParent sampleStore "1.3").1 ≠ .error errEmptyOID ∧
      (GetOIDSiblings sampleStore "1.3").1 ≠ .error errEmptyOID ∧
      (GetOIDChildren sampleStore "1.3").1 ≠ .error errEmptyOID) ∧
    (∀ q row, sampleStore.getName (parentQuery q) = .ok row → row.oid ≠ "") ∧
    (∀ out, GetOIDRelation 5 sampleStore "1.3" = some out → out.1 ≠ .error errEmptyOID) :=
  have hstore : ∀ q row, sampleStore.getName (parentQuery q) = .ok row → row.oid ≠ "" := by
    intro q row h
    simp only [sampleStore, parentQuery] at h
    split at h
    · injection h with h; subst h; decide
    · injection h with h; subst h; decide
    · simp at h
  ⟨(empty_path_invalid_input blankParentStore 5).1, by decide,
    (empty_path_invalid_input sampleStore 5).2.1 "1.3" (by decide), hstore,
    (empty_path_invalid_input sampleStore 5).2.2 "1.3" (by decide) hstore⟩

/-- C3 (as stated) fails: on the non-empty path `1`, whose parent row carries an
empty path, `GetOIDRelation` returns the empty-path error. -/
theorem empty_path_error_on_nonempty_path :
    "1" ≠ "" ∧
    (GetOIDRelation 1 blankParentStore "1").map Prod.fst = some (.error errEmptyOID) :=
  ⟨by decide, rfl⟩

/-- C4 (amended). For a non-empty path, a failure of the initial record fetch, of
the children fetch, or of the re-fetch of an ancestor's record is returned
unchanged as the result of `GetOIDRelation`, and no tree is returned. A failed
parent lookup is not such a failure: the record is taken to have no parent, the
ascent stops there and the tree built so far is returned successfully. -/
theorem GetOIDRelation_failure (d : Store) (P : String) (e : Error) (hP : P ≠ "") :
    ((GetOID d P).1 = .error e →
      ∀ fuel, (GetOIDRelation fuel d P).map Prod.fst = some (.error e)) ∧
    (∀ cur, (GetOID d P).1 = .ok cur → (GetOIDChildren d P).1 = .error e →
      ∀ fuel, (GetOIDRelation fuel d P).map Prod.fst = some (.error e)) ∧
    (∀ cur children n s props parent,
      (GetOID d P).1 = .ok cur → (GetOIDChildren d P).1 = .ok children →
      ascendIter d n (initialAscent cur children) = some s →
      s.currentOID.Properties = some props → props.Parent = some parent →
      (GetOID d parent.OID).1 = .error e →
      ∀ fuel, n < fuel → (GetOIDRelation fuel d P).map Prod.fst = some (.error e)) ∧
    (∀ cur children n s q,
      (GetOID d P).1 = .ok cur → (GetOIDChildren d P).1 = .ok children →
      ascendIter d n (initialAscent cur children) = some s →
      (GetOID d q).1 = .ok s.currentOID → (GetOIDParent d q).1 = .error e →
      ∀ fuel, n < fuel → (GetOIDRelation fuel d P).map Prod.fst = some (.ok s.res)) := by
  refine ⟨?_, ?_, ?_, ?_⟩
  · intro h fuel
    rcases hg : GetOID d P with ⟨r1, ev1⟩
    rw [hg] at h
    simp only at h
    subst h
    simp [GetOIDRelation, hP, hg]
  · intro cur hcur h fuel
    rcases hg : GetOID d P with ⟨r1, ev1⟩
    rcases hc : GetOIDChildren d P with ⟨r2, ev2⟩
    rw [hg] at hcur
    rw [hc] at h
    simp only at hcur h
    subst hcur h
    simp [GetOIDRelation, hP, hg, hc]
  · intro cur children n s props parent hcur hch hiter hprops hpar hfail fuel hfuel
    obtain ⟨m, rfl⟩ : ∃ m, fuel = n + (m + 1) := ⟨fuel - n - 1, by omega⟩
    rw [GetOIDRelation_of_iter d P hP cur children n (m + 1) s hcur hch hiter]
    rcases hg : GetOID d parent.OID with ⟨r1, ev1⟩
    rw [hg] at hfail
    simp only at hfail
    subst hfail
    simp [ascend, ascendStep, hprops, hpar, hg]
  · intro cur children n s q hcur hch hiter hq hfail fuel hfuel
    obtain ⟨m, rfl⟩ : ∃ m, fuel = n + (m + 1) := ⟨fuel - n - 1, by omega⟩
    rw [GetOIDRelation_of_iter d P hP cur children n (m + 1) s hcur hch hiter]
    have := (ascendStep_record d q s.currentOID s.res hq).1 e hfail
    have hs : (⟨s.currentOID, s.res⟩ : Ascent) = s := rfl
    rw [hs] at this
    simp [ascend, this]

/-- C4 (amended) on a store whose children statement fails. -/
theorem GetOIDRelation_failure_witness :
    "1" ≠ "" ∧
    (GetOIDChildren cyclicNoChildrenStore "1").1 =
      .error ((Error.new "driver: bad connection").wrap "failed to query database") ∧
    (GetOIDRelation 4 cyclicNoChildrenStore "1").map Prod.fst =
      some (.error ((Error.new "driver: bad connection").wrap "failed to query database")) :=
  ⟨by decide, rfl,
    (GetOIDRelation_failure cyclicNoChildrenStore "1" _ (by decide)).2.1 _ rfl rfl 4⟩

/-- C4 (as stated) fails: the parent lookup of `1.3`, made while the relation of
`1.3.6` is built, fails with a driver error, and `GetOIDRelation` nevertheless
succeeds, with a tree cut off at `1.3`. -/
theorem GetOIDRelation_truncated :
    "1.3.6" ≠ "" ∧
    (GetOIDParent flakyParentStore "1.3").1 =
      .error ((Error.new "driver: bad connection").wrap "failed to query database for parent") ∧
    (GetOIDRelation 2 flakyParentStore "1.3.6").map Prod.fst =
      some (.ok ⟨OID.mk "org" "1.3" none, [⟨OID.mk "dod" "1.3.6" none, []⟩]⟩) :=
  ⟨by decide, rfl, rfl⟩

/-- C5. For a non-empty path, `GetOID` succeeds exactly when the node query and
the descriptions query both succeed, whatever the nested parent lookup does; the
returned record has properties, its parent is the result of `GetOIDParent` when
that lookup succeeds and is absent when the lookup fails with any error. -/
theorem GetOID_parent_lenient (d : Store) (P : String) (hP : P ≠ "") :
    ((∃ r, (GetOID d P).1 = .ok r) ↔
      ((∃ row, d.getNode (oidQuery P) = .ok row) ∧
        ∃ ds, d.selectDescriptions (descriptionQuery P) = .ok ds)) ∧
    (∀ r, (GetOID d P).1 = .ok r →
      ∃ props, r.Properties = some props ∧
        (∀ p, props.Parent = some p ↔ (GetOIDParent d P).1 = .ok p) ∧
        (∀ e, (GetOIDParent d P).1 = .error e → props.Parent = none)) := by
  refine ⟨GetOID_ok_iff d P hP, ?_⟩
  intro r h
  obtain ⟨row, ds, -, -, hr⟩ := GetOID_parent d P r h
  subst hr
  refine ⟨_, rfl, ?_, ?_⟩
  · intro p
    cases hpar : (GetOIDParent d P).1 <;> simp [Properties.Parent]
  · intro e he
    simp [Properties.Parent, he]

/-- C5 on the sample store, for the path `1.3`. -/
theorem GetOID_parent_lenient_witness :
    "1.3" ≠ "" ∧
    (((∃ r, (GetOID sampleStore "1.3").1 = .ok r) ↔
      ((∃ row, sampleStore.getNode (oidQuery "1.3") = .ok row) ∧
        ∃ ds, sampleStore.selectDescriptions (descriptionQuery "1.3") = .ok ds)) ∧
    (∀ r, (GetOID sampleStore "1.3").1 = .ok r →
      ∃ props, r.Properties = some props ∧
        (∀ p, props.Parent = some p ↔ (GetOIDParent sampleStore "1.3").1 = .ok p) ∧
        (∀ e, (GetOIDParent sampleStore "1.3").1 = .error e → props.Parent = none))) :=
  ⟨by decide, GetOID_parent_lenient sampleStore "1.3" (by decide)⟩

/-! ## The handlers (C6, C7, C8) -/

/-- C6 (amended). A search request whose `limit` is given and is not the text of
an integer (`strconv.Atoi` fails) is answered 400 without any contact with the
store. A `limit` that is the text of an integer, negative ones included, is
accepted: once the handle is obtained, the statement sent to the store ends in the
`LIMIT` clause with that integer. -/
theorem searchOID_limit (keyword queryType limit : String) (connect : Except Error Store)
    (db : DB) (hl : limit ≠ "") :
    (∀ e, Atoi limit = .error e →
      (searchOID keyword queryType limit connect db).1.status = StatusBadRequest ∧
      (searchOID keyword queryType limit connect db).2.1 = db ∧
      (searchOID keyword queryType limit connect db).2.2 = []) ∧
    (∀ n typed d db1 ev, Atoi limit = .ok n →
      searchType keyword queryType {} = .ok typed →
      GetDB connect db = (.ok d, db1, ev) →
      (searchOID keyword queryType limit connect db).2.2 =
          ev ++ [.select (searchQuery { typed with Limit := some n })] ∧
        ∃ pre, (searchQuery { typed with Limit := some n }).sql = pre ++ " LIMIT " ++ Itoa n) := by
  constructor
  · intro e he
    unfold searchOID
    cases ht : searchType keyword queryType {} with
    | error resp =>
      simp only [searchType] at ht
      split at ht
      · split at ht
        · simp at ht
        · split at ht
          · simp at ht
          · split at ht
            · simp at ht
            · injection ht with ht
              subst ht
              exact ⟨rfl, rfl, rfl⟩
      · simp at ht
    | ok typed =>
      simp [searchLimit, hl, he]
  · intro n typed d db1 ev hn ht hdb
    have hlim : searchLimit limit typed = .ok { typed with Limit := some n } := by
      simp [searchLimit, hl, hn]
    exact ⟨(searchOID_sends keyword queryType limit connect db typed _ d db1 ev ht hlim hdb).1,
      searchQuery_limit typed n⟩

/-- C6 (amended) for the limit `abc`. -/
theorem searchOID_limit_witness :
    "abc" ≠ "" ∧ Atoi "abc" = .error (Error.numError "Atoi" "abc" ErrSyntax) ∧
    (searchOID "iso" "name" "abc" (.ok sampleStore) DB.zero).1.status = StatusBadRequest ∧
    (searchOID "iso" "name" "abc" (.ok sampleStore) DB.zero).2.1 = DB.zero ∧
    (searchOID "iso" "name" "abc" (.ok sampleStore) DB.zero).2.2 = [] :=
  ⟨by decide, rfl,
    (searchOID_limit "iso" "name" "abc" (.ok sampleStore) DB.zero (by decide)).1 _ rfl⟩

/-- C6 (as stated) fails: the limit `-1` does not denote a non-negative integer,
yet the request is not rejected and a statement ending in `LIMIT -1` is sent to
the store. -/
theorem searchOID_negative_limit_sent :
    Atoi "-1" = .ok (-1) ∧
    (searchOID "" "" "-1" (.ok sampleStore) DB.zero).1.status = StatusOK ∧
    (searchOID "" "" "-1" (.ok sampleStore) DB.zero).2.2 =
      [Event.connect, Event.select ⟨"SELECT name, oid FROM oids ORDER BY oid LIMIT -1", []⟩] :=
  ⟨rfl, rfl, by decide⟩

/-- C7 (amended). With a non-empty keyword, a `type` other than `oid`, `name`,
`any` or empty is answered 400 "invalid queryType" without any contact with the
store. With an empty keyword the `type` is not examined at all: the request is
handled exactly as with an empty `type`. A `type` of the set never causes the
400 outcome by itself: it is accepted by the type switch, and the status is then
400 only if the limit of the request is malformed or the store call made for
this very request (its own criteria, on the handle `GetDB` returned) failed. -/
theorem searchOID_type (keyword queryType limit : String) (connect : Except Error Store)
    (db : DB) :
    (keyword ≠ "" → queryType ∉ ["oid", "name", "any", ""] →
      (searchOID keyword queryType limit connect db).1.status = StatusBadRequest ∧
      (searchOID keyword queryType limit connect db).2.1 = db ∧
      (searchOID keyword queryType limit connect db).2.2 = []) ∧
    searchOID "" queryType limit connect db = searchOID "" "" limit connect db ∧
    (queryType ∈ ["oid", "name", "any", ""] →
      ∃ typed, searchType keyword queryType {} = .ok typed ∧
        ((searchOID keyword queryType limit connect db).1.status = StatusBadRequest →
          (limit ≠ "" ∧ ∃ e, Atoi limit = .error e) ∨
          ∃ os d db1 ev e, searchLimit limit typed = .ok os ∧
            GetDB connect db = (.ok d, db1, ev) ∧ (SearchOID d os).1 = .error e)) := by
  refine ⟨?_, ?_, ?_⟩
  · intro hk ht
    simp only [List.mem_cons, List.mem_singleton, List.not_mem_nil, or_false, not_or] at ht
    obtain ⟨h1, h2, h3, h4⟩ := ht
    simp [searchOID, searchType, hk, h1, h2, h3, h4]
  · simp [searchOID, searchType]
  · intro ht
    obtain ⟨typed, htyped⟩ := searchType_ok keyword queryType ht
    refine ⟨typed, htyped, ?_⟩
    intro hs
    cases hlim : searchLimit limit typed with
    | error resp => exact Or.inl (searchLimit_error limit typed resp hlim)
    | ok os =>
      right
      rcases hdb : GetDB connect db with ⟨r, db1, ev⟩
      cases r with
      | error e =>
        simp [searchOID, htyped, hlim, hdb, StatusInternalServerError, StatusBadRequest] at hs
      | ok d =>
        obtain ⟨e, he⟩ :=
          (searchOID_sends keyword queryType limit connect db typed os d db1 ev htyped hlim hdb).2.1 hs
        exact ⟨os, d, db1, ev, e, rfl, rfl, he⟩

/-- C7 (amended) at concrete requests: the type `bogus` with the keyword `iso` is
rejected without store contact; the type `name` with the same keyword on a store
that is down is answered 400 because the store call of that request failed. -/
theorem searchOID_type_witness :
    ("iso" ≠ "" ∧ "bogus" ∉ ["oid", "name", "any", ""] ∧
      (searchOID "iso" "bogus" "" (.ok sampleStore) DB.zero).1.status = StatusBadRequest ∧
      (searchOID "iso" "bogus" "" (.ok sampleStore) DB.zero).2.1 = DB.zero ∧
      (searchOID "iso" "bogus" "" (.ok sampleStore) DB.zero).2.2 = []) ∧
    ("name" ∈ ["oid", "name", "any", ""] ∧
      ∃ typed, searchType "iso" "name" {} = .ok typed ∧
        ((searchOID "iso" "name" "" (.ok downStore) DB.zero).1.status = StatusBadRequest →
          ("" ≠ "" ∧ ∃ e, Atoi "" = .error e) ∨
          ∃ os d db1 ev e, searchLimit "" typed = .ok os ∧
            GetDB (.ok downStore) DB.zero = (.ok d, db1, ev) ∧
            (SearchOID d os).1 = .error e)) :=
  ⟨⟨by decide, by decide,
    (searchOID_type "iso" "bogus" "" (.ok sampleStore) DB.zero).1 (by decide) (by decide)⟩,
   by decide,
    (searchOID_type "iso" "name" "" (.ok downStore) DB.zero).2.2 (by decide)⟩

/-- C7 (as stated) fails: with the empty keyword the invalid type `bogus` is not
rejected; the store is contacted and the answer is 200. -/
theorem searchOID_empty_keyword_ignores_type :
    "bogus" ∉ ["oid", "name", "any", ""] ∧
    (searchOID "" "bogus" "" (.ok sampleStore) DB.zero).1.status = StatusOK ∧
    (searchOID "" "bogus" "" (.ok sampleStore) DB.zero).2.2 =
      [Event.connect, Event.select ⟨"SELECT name, oid FROM oids ORDER BY oid", []⟩] :=
  ⟨by decide, rfl, by decide⟩

/-- C8 (amended). In each of the six handlers a failure of `GetDB` is answered
500, and a failure of the adapter call on the handle (for `searchOID`: of a
request with accepted `type` and `limit`) is answered 400, the status also used
for malformed input. The statuses 400, 404 and 500 are pairwise distinct. -/
theorem handler_status_classes (fuel : Nat) (keyword queryType limit wantedOID : String)
    (connect : Except Error Store) (db : DB) :
    (∀ e db1 ev, GetDB connect db = (.error e, db1, ev) →
      (∀ typed os, searchType keyword queryType {} = .ok typed →
        searchLimit limit typed = .ok os →
        (searchOID keyword queryType limit connect db).1.status = StatusInternalServerError) ∧
      (getOID wantedOID connect db).1.status = StatusInternalServerError ∧
      (getOIDRelation fuel wantedOID connect db).map (fun r => r.1.status) =
        some StatusInternalServerError ∧
      (getOIDParent wantedOID connect db).1.status = StatusInternalServerError ∧
      (getOIDSiblings wantedOID connect db).1.status = StatusInternalServerError ∧
      (getOIDChildren wantedOID connect db).1.status = StatusInternalServerError) ∧
    (∀ d db1 ev, GetDB connect db = (.ok d, db1, ev) →
      (∀ typed os e, searchType keyword queryType {} = .ok typed →
        searchLimit limit typed = .ok os → (SearchOID d os).1 = .error e →
        (searchOID keyword queryType limit connect db).1.status = StatusBadRequest) ∧
      (∀ e, (GetOID d wantedOID).1 = .error e →
        (getOID wantedOID connect db).1.status = StatusBadRequest) ∧
      (∀ e, (GetOIDRelation fuel d wantedOID).map Prod.fst = some (.error e) →
        (getOIDRelation fuel wantedOID connect db).map (fun r => r.1.status) =
          some StatusBadRequest) ∧
      (∀ e, (GetOIDParent d wantedOID).1 = .error e →
        (getOIDParent wantedOID connect db).1.status = StatusBadRequest) ∧
      (∀ e, (GetOIDSiblings d wantedOID).1 = .error e →
        (getOIDSiblings wantedOID connect db).1.status = StatusBadRequest) ∧
      (∀ e, (GetOIDChildren d wantedOID).1 = .error e →
        (getOIDChildren wantedOID connect db).1.status = StatusBadRequest)) ∧
    (StatusBadRequest ≠ StatusNotFound ∧ StatusBadRequest ≠ StatusInternalServerError ∧
      StatusNotFound ≠ StatusInternalServerError) := by
  refine ⟨?_, ?_, by decide, by decide, by decide⟩
  · intro e db1 ev hdb
    refine ⟨?_, ?_, ?_, ?_, ?_, ?_⟩
    · intro typed os ht hl
      simp [searchOID, ht, hl, hdb]
    · simp [getOID, hdb]
    · simp [getOIDRelation, hdb]
    · simp [getOIDParent, hdb]
    · simp [getOIDSiblings, hdb]
    · simp [getOIDChildren, hdb]
  · intro d db1 ev hdb
    refine ⟨?_, ?_, ?_, ?_, ?_, ?_⟩
    · intro typed os e ht hl he
      exact (searchOID_sends keyword queryType limit connect db typed os d db1 ev ht hl hdb).2.2
        ⟨e, he⟩
    · intro e he
      rcases h : GetOID d wantedOID with ⟨r, ev2⟩
      rw [h] at he
      simp only at he
      subst he
      simp [getOID, hdb, h]
    · intro e he
      cases h : GetOIDRelation fuel d wantedOID with
      | none => simp [h] at he
      | some out =>
        rcases out with ⟨r, ev2⟩
        rw [h] at he
        simp only [Option.map_some', Option.some.injEq] at he
        subst he
        simp [getOIDRelation, hdb, h]
    · intro e he
      rcases h : GetOIDParent d wantedOID with ⟨r, ev2⟩
      rw [h] at he
      simp only at he
      subst he
      simp [getOIDParent, hdb, h]
    · intro e he
      rcases h : GetOIDSiblings d wantedOID with ⟨r, ev2⟩
      rw [h] at he
      simp only at he
      subst he
      simp [getOIDSiblings, hdb, h]
    · intro e he
      rcases h : GetOIDChildren d wantedOID with ⟨r, ev2⟩
      rw [h] at he
      simp only at he
      subst he
      simp [getOIDChildren, hdb, h]

/-- C8 (amended) for `getOID` on a store that is down. -/
theorem handler_status_classes_witness :
    (GetOID downStore "1.3").1 =
      .error ((Error.new "driver: bad connection").wrap "failed to query database for oid") ∧
    (getOID "1.3" (.ok downStore) DB.zero).1.status = StatusBadRequest :=
  ⟨rfl, ((handler_status_classes 3 "iso" "name" "5" "1.3" (.ok downStore) DB.zero).2.1
    downStore ⟨true, some downStore⟩ [Event.connect] rfl).2.1 _ rfl⟩

/-- C8 (as stated) fails: the store is down, the adapter call of a well-formed
request fails with the driver error, and each handler answers 400, the status of
malformed input, not a status of its own. -/
theorem store_failure_is_bad_request :
    (GetOID downStore "1.3").1 =
      .error ((Error.new "driver: bad connection").wrap "failed to query database for oid") ∧
    (getOID "1.3" (.ok downStore) DB.zero).1.status = 400 ∧
    (getOIDRelation 3 "1.3" (.ok downStore) DB.zero).map (fun r => r.1.status) = some 400 ∧
    (getOIDParent "1.3" (.ok downStore) DB.zero).1.status = 400 ∧
    (getOIDSiblings "1.3" (.ok downStore) DB.zero).1.status = 400 ∧
    (getOIDChildren "1.3" (.ok downStore) DB.zero).1.status = 400 ∧
    (searchOID "iso" "name" "5" (.ok downStore) DB.zero).1.status = 400 :=
  ⟨rfl, rfl, rfl, rfl, rfl, rfl, rfl⟩

/-! ## The shared handle (C9) -/

/-- C9 (amended). In every sequential run of `GetDB` calls from the initial
state only the first call runs the initialization. When it fails, that call
reports the failure and every later call returns the error "database was not
initialized" without connecting again, whatever the connection attempt would
give; when it succeeds, that call and every later call return that same handle
and no later call connects again. -/
theorem GetDB_once_only (c0 : Except Error Store) (rest : List (Except Error Store))
    (c : Except Error Store) :
    GetDB c0 DB.zero =
      (match c0 with
      | .error err =>
        (.error ((err.wrap "failed to connect to database").wrap "failed to initialize DB"),
          ⟨true, none⟩, [Event.connect])
      | .ok d => (.ok d, ⟨true, some d⟩, [Event.connect])) ∧
    GetDB c (GetDBRun DB.zero (c0 :: rest)) =
      (match c0 with
      | .error _ => (.error (Error.new "database was not initialized"), ⟨true, none⟩, [])
      | .ok d => (.ok d, ⟨true, some d⟩, [])) := by
  cases c0 with
  | error err =>
    refine ⟨rfl, ?_⟩
    have h1 : (GetDB (.error err) DB.zero).2.1 = ⟨true, none⟩ := rfl
    simp only [GetDBRun, h1, GetDBRun_after_once, GetDB_after_once]
  | ok d =>
    refine ⟨rfl, ?_⟩
    have h1 : (GetDB (.ok d) DB.zero).2.1 = ⟨true, some d⟩ := rfl
    simp only [GetDBRun, h1, GetDBRun_after_once, GetDB_after_once]

/-- C9 (as stated) fails: after a first call whose connection attempt failed, a
second call whose connection attempt would succeed does not connect and does not
return the handle. -/
theorem GetDB_no_retry :
    GetDB (.ok sampleStore)
        (GetDB (.error (Error.new "dial tcp: connection refused")) DB.zero).2.1 =
      (.error (Error.new "database was not initialized"), ⟨true, none⟩, []) :=
  rfl

/-! ## Cyclic parent chains (C10) -/

/-- C10 (amended). For a non-empty path `P` whose parent chain is cyclic (the
chain returns to a path already visited, and every record fetch and every parent
lookup on the way succeeds) and whose children fetch succeeds, `GetOIDRelation`
never returns: the fuel-bounded loop gives no result for any fuel; after every
number `n` of passes the loop is still running, and the depth of the accumulated
tree is its initial depth plus `n`. -/
theorem GetOIDRelation_cycle (d : Store) (P : String) (i j : Nat) (hP : P ≠ "")
    (hij : i < j) (hcyc : ancestorPath d j P = ancestorPath d i P)
    (hchain : ∀ n, n < j → ∃ p cur a, ancestorPath d n P = some p ∧
      (GetOID d p).1 = .ok cur ∧ (GetOIDParent d p).1 = .ok a)
    (hchildren : ∃ cs, (GetOIDChildren d P).1 = .ok cs) :
    (∀ fuel, GetOIDRelation fuel d P = none) ∧
    ∃ cur children, (GetOID d P).1 = .ok cur ∧ (GetOIDChildren d P).1 = .ok children ∧
      ∀ n, ∃ s, ascendIter d n (initialAscent cur children) = some s ∧
        s.res.depth = (initialAscent cur children).res.depth + n := by
  have hgood := cyclic_chain_total d P i j hij hcyc hchain
  obtain ⟨q0, cur, a, hq0, hcur, -⟩ := hgood 0
  simp only [ancestorPath, Option.some.injEq] at hq0
  subst hq0
  obtain ⟨children, hch⟩ := hchildren
  refine ⟨?_, cur, children, hcur, hch, ?_⟩
  · intro fuel
    have h := (ascend_total_chain d fuel P cur (initialAscent cur children).res hcur hgood).1
    rcases hg : GetOID d P with ⟨r1, ev1⟩
    rcases hc : GetOIDChildren d P with ⟨r2, ev2⟩
    rw [hg] at hcur
    rw [hc] at hch
    simp only at hcur hch
    subst hcur hch
    have h1 : ascend d fuel (initialAscent cur children) = none := h
    simp [GetOIDRelation, hP, hg, hc, h1]
  · intro n
    exact (ascend_total_chain d n P cur (initialAscent cur children).res hcur hgood).2

/-- C10 (amended) on the store whose node `1` is its own parent. -/
theorem GetOIDRelation_cycle_witness :
    "1" ≠ "" ∧ ancestorPath cyclicStore 1 "1" = ancestorPath cyclicStore 0 "1" ∧
    ((∀ fuel, GetOIDRelation fuel cyclicStore "1" = none) ∧
    ∃ cur children, (GetOID cyclicStore "1").1 = .ok cur ∧
      (GetOIDChildren cyclicStore "1").1 = .ok children ∧
      ∀ n, ∃ s, ascendIter cyclicStore n (initialAscent cur children) = some s ∧
        s.res.depth = (initialAscent cur children).res.depth + n) :=
  ⟨by decide, rfl,
    GetOIDRelation_cycle cyclicStore "1" 0 1 (by decide) (by decide) rfl
      (fun n hn => by
        have : n = 0 := by omega
        subst this
        exact ⟨"1", _, _, rfl, rfl, rfl⟩)
      ⟨_, rfl⟩⟩

/-- C10 (as stated) fails: the parent chain of `1` is cyclic and every record
fetch and parent lookup along it succeeds, but the children fetch fails, so
`GetOIDRelation` returns that error before the loop is entered. -/
theorem GetOIDRelation_cycle_returns :
    "1" ≠ "" ∧
    ancestorPath cyclicNoChildrenStore 1 "1" = ancestorPath cyclicNoChildrenStore 0 "1" ∧
    (∃ cur, (GetOID cyclicNoChildrenStore "1").1 = .ok cur) ∧
    (∃ a, (GetOIDParent cyclicNoChildrenStore "1").1 = .ok a) ∧
    (GetOIDRelation 1 cyclicNoChildrenStore "1").map Prod.fst =
      some (.error ((Error.new "driver: bad connection").wrap "failed to query database")) :=
  ⟨by decide, rfl, ⟨_, rfl⟩, ⟨_, rfl⟩, rfl⟩

end OidExplorer
